import Mathlib

/-!
# iio-display: from sensor events to display actions

A shallow embedding of `src/main.c`.

* C strings are Lean strings read up to their first NUL character; `strcmp` and
  `strncmp` follow the C library: they compare character by character and stop
  at the terminator (the end of the Lean string, or a NUL inside it).
* `double` is a type `R` with the arithmetic operations the program uses;
  `log10` (libm) and the `%lf` conversion of `printf` are parameters of the
  functions that use them.  With `R = ℝ` and `log10 = Real.logb 10` the
  arithmetic is exact; with `R = Double ℝ` every operation rounds its exact
  result to the nearest double, as the machine does.
* Everything the program does to the outside world is recorded, in program
  order, as a list of `Effect`s.
-/

namespace IioDisplay

/-! ## Effects and the C library -/

/-- What the program does to the outside world, one constructor per library
call used in `main.c`. -/
inductive Effect where
  /-- `g_print` / `printf`: text written to standard output. -/
  | print (text : String)
  /-- `g_warning`: a logged warning. -/
  | warning (text : String)
  /-- `system`: a shell command line. -/
  | system (cmd : String)
  /-- `g_signal_connect` of `properties_changed` to the named signal. -/
  | signal_connect (signal : String)
  /-- `g_dbus_proxy_call_sync` of the named method on the sensor service. -/
  | call_sync (method : String)
  /-- `g_main_loop_quit (loop)`. -/
  | main_loop_quit
  deriving DecidableEq

/-- The NUL character that terminates a C string. -/
def NUL : Char := Char.ofNat 0

/-- The text of a C string: the characters before the first NUL.  This is what
the `%s` conversion prints. -/
def cstr (s : String) : String := ⟨s.toList.takeWhile (fun c => c.toNat ≠ 0)⟩

/-- Comparison loop of `strcmp`: the difference of the first pair of characters
that differ, or 0 when both strings end together.  The end of a list is the
terminator (character code 0). -/
def strcmp_loop : List Char → List Char → Int
  | [], [] => 0
  | [], b :: _ => 0 - (b.toNat : Int)
  | a :: _, [] => (a.toNat : Int)
  | a :: as, b :: bs =>
    if a ≠ b then (a.toNat : Int) - (b.toNat : Int)
    else if a.toNat = 0 then 0
    else strcmp_loop as bs

/-- Model of `strcmp (s1, s2)`. -/
def strcmp (s1 s2 : String) : Int := strcmp_loop s1.toList s2.toList

/-- Comparison loop of `strncmp`: as `strcmp_loop`, over at most `n`
characters. -/
def strncmp_loop : List Char → List Char → Nat → Int
  | _, _, 0 => 0
  | [], [], _ + 1 => 0
  | [], b :: _, _ + 1 => 0 - (b.toNat : Int)
  | a :: _, [], _ + 1 => (a.toNat : Int)
  | a :: as, b :: bs, n + 1 =>
    if a ≠ b then (a.toNat : Int) - (b.toNat : Int)
    else if a.toNat = 0 then 0
    else strncmp_loop as bs n

/-- Model of `strncmp (s1, s2, n)`. -/
def strncmp (s1 s2 : String) (n : Nat) : Int := strncmp_loop s1.toList s2.toList n

/-! ## Constants of `main.c` -/

/-- `#define LOWER_BACKLIGHT 6` -/
def LOWER_BACKLIGHT : Nat := 6

/-- `#define NORMAL_COORDS` -/
def NORMAL_COORDS : String := "1 0 0 0 1 0 0 0 1"

/-- `#define INVERT_COORDS` -/
def INVERT_COORDS : String := "-1 0 1 0 -1 1 0 0 1"

/-- `#define LEFT_COORDS` -/
def LEFT_COORDS : String := "0 -1 1 1 0 0 0 0 1"

/-- `#define RIGHT_COORDS` -/
def RIGHT_COORDS : String := "0 1 0 -1 0 1 0 0 1"

/-- The local array `transdevices[3][64]` of `properties_changed`. -/
def transdevices : List String :=
  ["Atmel", "Wacom ISDv4 12C Pen stylus", "Wacom ISDv4 12C Pen eraser"]

/-! ## Brightness model -/

/-- Model of `calculate_brightness (value, unit)`: the returned double together
with what the call prints. -/
def calculate_brightness {R : Type} [Zero R] [One R] [NatCast R] [Add R] [Div R]
    (log10 : R → R) (value : R) (unit : String) : R × List Effect :=
  if strncmp unit "lux" 4 ≠ 0 then
    (0, [Effect.print ("Unknown unit: " ++ cstr unit ++ "\n")])
  else
    (log10 (value + 1) / 5, [])

/-! ## Change dispatcher -/

/-- The cached properties of the sensor-service proxy `iio_proxy`, as read with
`g_dbus_proxy_get_cached_property`. -/
structure Properties (R : Type) where
  /-- Property `HasAccelerometer`. -/
  HasAccelerometer : Bool
  /-- Property `AccelerometerOrientation`. -/
  AccelerometerOrientation : String
  /-- Property `HasAmbientLight`. -/
  HasAmbientLight : Bool
  /-- Property `LightLevel`. -/
  LightLevel : R
  /-- Property `LightLevelUnit`. -/
  LightLevelUnit : String

/-- The `sprintf` of the `xinput` command line for one device and one
coordinate string. -/
def xinput_command (device coords : String) : String :=
  "xinput set-prop '" ++ cstr device ++ "' 'Coordinate Transformation Matrix' " ++ coords

/-- The loop `for (int i = 0; i < 3; i++)` that issues the `xinput` command of
every entry of `transdevices`. -/
def set_transforms (coords : String) : List Effect :=
  (List.range 3).map fun i => Effect.system (xinput_command (transdevices.getD i "") coords)

/-- Model of `properties_changed`.  `changed_properties` is the list of keys of
the dictionary of changed properties (the handler only tests which keys are
present and reads the values from the proxy cache `cache`). -/
def properties_changed {R : Type} [Zero R] [One R] [NatCast R] [Add R] [Mul R] [Div R]
    (log10 : R → R) (fmt_lf : R → String) (cache : Properties R)
    (changed_properties : List String) : List Effect :=
  (if "HasAccelerometer" ∈ changed_properties then
    (if cache.HasAccelerometer then
      [Effect.print "+++ Accelerometer appeared\n"]
    else
      [Effect.print "--- Accelerometer disappeared\n"])
  else []) ++
  (if "AccelerometerOrientation" ∈ changed_properties then
    (let varstr := cache.AccelerometerOrientation
    if strcmp varstr "normal" = 0 then
      Effect.system "xrandr --output eDP1 --rotate normal" :: set_transforms NORMAL_COORDS
    else if strcmp varstr "left-up" = 0 then
      Effect.system "xrandr --output eDP1 --rotate left" :: set_transforms LEFT_COORDS
    else if strcmp varstr "right-up" = 0 then
      Effect.system "xrandr --output eDP1 --rotate right" :: set_transforms RIGHT_COORDS
    else if strcmp varstr "bottom-up" = 0 then
      Effect.system "xrandr --output eDP1 --rotate inverted" :: set_transforms INVERT_COORDS
    else
      [Effect.print "Unknown command\n"])
  else []) ++
  (if "HasAmbientLight" ∈ changed_properties then
    (if cache.HasAmbientLight then
      [Effect.print "+++ Light sensor appeared\n"]
    else
      [Effect.print "--- Light sensor disappeared\n"])
  else []) ++
  (if "LightLevel" ∈ changed_properties then
    (let dvalue := cache.LightLevel
    let varstr := cache.LightLevelUnit
    let brightness := calculate_brightness log10 dvalue varstr
    let buffer := "xbacklight -set " ++ fmt_lf (brightness.1 * 10 + (LOWER_BACKLIGHT : R))
    brightness.2 ++ [Effect.print (buffer ++ "\n"), Effect.system buffer])
  else [])

/-- The shell command lines among a list of effects, in order: the calls made
to the action executor. -/
def system_calls : List Effect → List String
  | [] => []
  | Effect.system cmd :: rest => cmd :: system_calls rest
  | _ :: rest => system_calls rest


/-- The table of the orientation mapper as the specification gives it:
orientation name, rotation name, and the 3x3 matrix by rows. -/
def orientation_table : List (String × String × List (List Int)) :=
  [("normal", "normal", [[1, 0, 0], [0, 1, 0], [0, 0, 1]]),
   ("left-up", "left", [[0, -1, 1], [1, 0, 0], [0, 0, 1]]),
   ("right-up", "right", [[0, 1, 0], [-1, 0, 1], [0, 0, 1]]),
   ("bottom-up", "inverted", [[-1, 0, 1], [0, -1, 1], [0, 0, 1]])]

/-- A matrix written row by row as space-separated decimal values. -/
def matrix_text (m : List (List Int)) : String :=
  " ".intercalate (m.flatten.map toString)

/-- The set-transform command lines for a matrix: one per device of the device
list, in list order, each carrying the matrix as text. -/
def transform_calls (m : List (List Int)) : List String :=
  transdevices.map fun d =>
    "xinput set-prop '" ++ d ++ "' 'Coordinate Transformation Matrix' " ++ matrix_text m

/-- The command line of the display-rotation command for a rotation name. -/
def rotate_command (rotation : String) : String :=
  "xrandr --output eDP1 --rotate " ++ rotation

/-- The backlight command lines a batch gives rise to: one when the batch has
the `LightLevel` key, none otherwise. -/
def backlight_calls {R : Type} [Zero R] [One R] [NatCast R] [Add R] [Mul R] [Div R]
    (log10 : R → R) (fmt_lf : R → String) (cache : Properties R)
    (changed_properties : List String) : List String :=
  if "LightLevel" ∈ changed_properties then
    ["xbacklight -set " ++
      fmt_lf ((calculate_brightness log10 cache.LightLevel cache.LightLevelUnit).1 * 10 + 6)]
  else []

/-! ## Sensor session -/

/-- A `GError`, as far as the handlers look at it. -/
structure GError where
  /-- Whether `g_error_matches (error, G_IO_ERROR, G_IO_ERROR_CANCELLED)`. -/
  cancelled : Bool
  /-- The field `error->message`. -/
  message : String
  deriving DecidableEq

/-- Outcome of one `g_dbus_proxy_call_sync`: a reply (`ret` is not NULL), or
NULL with `error` set. -/
inductive CallResult where
  /-- The call returned a reply. -/
  | ok
  /-- The call returned NULL and set `error`. -/
  | failed (error : GError)
  deriving DecidableEq

/-- A `GDBusProxy` handle. -/
structure Proxy where
  /-- Identity of the proxy object. -/
  id : Nat
  deriving DecidableEq

/-- What the environment answers during one run of `appeared_cb`. -/
structure Appearance (R : Type) where
  /-- Result of `g_dbus_proxy_new_for_bus_sync`; `none` is NULL. -/
  new_proxy : Option Proxy
  /-- Outcome of the call of `ClaimAccelerometer`. -/
  claim_accelerometer : CallResult
  /-- Outcome of the call of `ClaimLight`. -/
  claim_light : CallResult
  /-- The property cache of the new proxy. -/
  cache : Properties R

/-- State of the sensor session: the global `iio_proxy` (`none` is NULL), and
for each capability whether the claim call made through that proxy returned a
reply.  The two flags record the outcome of the calls; the program keeps no
variable for them. -/
structure Session where
  /-- The global `iio_proxy`. -/
  iio_proxy : Option Proxy
  /-- `ClaimAccelerometer` was granted on the current connection. -/
  accelerometer_claimed : Bool
  /-- `ClaimLight` was granted on the current connection. -/
  light_claimed : Bool
  deriving DecidableEq

/-- Model of `print_initial_values`, reading the cache of `iio_proxy`. -/
def print_initial_values {R : Type} (fmt_lf : R → String) (cache : Properties R) :
    List Effect :=
  (if cache.HasAccelerometer then
    [Effect.print
      ("=== Has accelerometer (orientation: " ++ cstr cache.AccelerometerOrientation ++ ")\n")]
  else
    [Effect.print "=== No accelerometer\n"]) ++
  (if cache.HasAmbientLight then
    [Effect.print
      ("=== Has ambient light sensor (value: " ++ fmt_lf cache.LightLevel ++ ", unit: " ++
        cstr cache.LightLevelUnit ++ ")\n")]
  else
    [Effect.print "=== No ambient light sensor\n"])

/-- Model of `appeared_cb`: the new session state and the effects, in order.
The result is `none` when `g_dbus_proxy_new_for_bus_sync` returns NULL: the
claim call on a NULL proxy then returns NULL without setting `error`, and the
handler dereferences `error`. -/
def appeared_cb {R : Type} (fmt_lf : R → String) (env : Appearance R) (_s : Session) :
    Option (Session × List Effect) :=
  match env.new_proxy with
  | none => none
  | some proxy =>
    let entry := [Effect.print "+++ iio-sensor-proxy appeared\n",
      Effect.signal_connect "g-properties-changed",
      Effect.call_sync "ClaimAccelerometer"]
    match env.claim_accelerometer with
    | CallResult.failed error =>
      some (⟨some proxy, false, false⟩,
        entry ++
        (if !error.cancelled then
          [Effect.warning ("Failed to claim accelerometer: " ++ cstr error.message)]
        else []) ++
        [Effect.main_loop_quit])
    | CallResult.ok =>
      match env.claim_light with
      | CallResult.failed error =>
        some (⟨some proxy, true, false⟩,
          entry ++ [Effect.call_sync "ClaimLight"] ++
          (if !error.cancelled then
            [Effect.warning ("Failed to claim light sensor: " ++ cstr error.message)]
          else []) ++
          [Effect.main_loop_quit])
      | CallResult.ok =>
        some (⟨some proxy, true, true⟩,
          entry ++ [Effect.call_sync "ClaimLight"] ++ print_initial_values fmt_lf env.cache)

/-- Model of `vanished_cb`. -/
def vanished_cb (s : Session) : Session × List Effect :=
  match s.iio_proxy with
  | some _ =>
    (⟨none, false, false⟩,
      [Effect.print "--- iio-sensor-proxy vanished, waiting for it to appear\n"])
  | none => (s, [])

/-- The events of the name watcher set up in `main` with `g_bus_watch_name`. -/
inductive Event (R : Type) where
  /-- The service name got an owner: `appeared_cb` runs, with these answers. -/
  | appeared (env : Appearance R)
  /-- The service name lost its owner: `vanished_cb` runs. -/
  | vanished

/-- Dispatch of one event to its callback. -/
def step {R : Type} (fmt_lf : R → String) (s : Session) : Event R → Option (Session × List Effect)
  | Event.appeared env => appeared_cb fmt_lf env s
  | Event.vanished => some (vanished_cb s)

/-- Model of `g_main_loop_run (loop)` over a list of pending events: the events
are dispatched in order, and the loop returns once a callback has called
`g_main_loop_quit`. -/
def main_loop {R : Type} (fmt_lf : R → String) :
    Session → List (Event R) → Option (Session × List Effect)
  | s, [] => some (s, [])
  | s, e :: es =>
    match step fmt_lf s e with
    | none => none
    | some (s1, t1) =>
      if Effect.main_loop_quit ∈ t1 then some (s1, t1)
      else
        match main_loop fmt_lf s1 es with
        | none => none
        | some (s2, t2) => some (s2, t1 ++ t2)

/-- The session at the start of `main`: the static `iio_proxy` is NULL. -/
def initial_session : Session := ⟨none, false, false⟩

/-- The states of the session of the specification's data model. -/
inductive SensorSessionState where
  /-- No proxy handle is held. -/
  | Disconnected
  /-- A proxy handle is held, not both capabilities are claimed. -/
  | ConnectedUnclaimed
  /-- A proxy handle is held and both capabilities are claimed. -/
  | Claimed
  deriving DecidableEq

/-- The state of the specification's state machine a session is in. -/
def session_state (s : Session) : SensorSessionState :=
  match s.iio_proxy with
  | none => SensorSessionState.Disconnected
  | some _ =>
    if s.accelerometer_claimed && s.light_claimed then SensorSessionState.Claimed
    else SensorSessionState.ConnectedUnclaimed

/-- The methods called on the sensor service among a list of effects, in
order. -/
def method_calls : List Effect → List String
  | [] => []
  | Effect.call_sync method :: rest => method :: method_calls rest
  | _ :: rest => method_calls rest

/-- Every call made during an appearance event succeeds: the proxy is created
and both claims are granted. -/
def claims_succeed {R : Type} : Event R → Prop
  | Event.appeared env =>
    env.new_proxy.isSome = true ∧ env.claim_accelerometer = CallResult.ok ∧
      env.claim_light = CallResult.ok
  | Event.vanished => True

/-- The claim calls the recovery cycle expects of one event: both claims, in
order, on an appearance, none otherwise. -/
def expected_calls {R : Type} : Event R → List String
  | Event.appeared _ => ["ClaimAccelerometer", "ClaimLight"]
  | Event.vanished => []

/-- The session state the recovery cycle expects after one event. -/
def expected_state {R : Type} : Event R → SensorSessionState
  | Event.appeared _ => SensorSessionState.Claimed
  | Event.vanished => SensorSessionState.Disconnected

/-! ## Coordinate strings as matrices -/

/-- The words of a text, split at single spaces. -/
def split_spaces : List Char → List (List Char)
  | [] => [[]]
  | c :: cs =>
    match split_spaces cs with
    | [] => [[c]]
    | w :: ws => if c = Char.ofNat 32 then [] :: w :: ws else (c :: w) :: ws

/-- The number written by a non-empty run of decimal digits. -/
def read_digits (cs : List Char) : Option Nat :=
  if cs = [] then none
  else cs.foldl (fun acc c =>
    match acc with
    | none => none
    | some n => if c.isDigit then some (10 * n + (c.toNat - 48)) else none) (some 0)

/-- The integer written by a word: digits with an optional leading minus sign. -/
def read_int (cs : List Char) : Option Int :=
  match cs with
  | [] => none
  | c :: rest =>
    if c = Char.ofNat 45 then (read_digits rest).map (fun n => -(n : Int))
    else (read_digits cs).map Int.ofNat

/-- The values of a coordinate string such as `LEFT_COORDS`, in order. -/
def read_coords (s : String) : Option (List Int) :=
  (split_spaces s.toList).mapM read_int

/-- A coordinate string read as a 3x3 matrix, row-major. -/
def coords_matrix (s : String) : Matrix (Fin 3) (Fin 3) ℤ :=
  Matrix.of fun i j => ((read_coords s).getD []).getD (3 * i.val + j.val) 0

/-- The point a coordinate transformation matrix sends a point to: the matrix
is applied to the homogeneous vector (x, y, 1) and the result is divided by its
third component. -/
def transform_point {R : Type} [Field R] (m : Matrix (Fin 3) (Fin 3) ℤ) (p : R × R) : R × R :=
  let x := (m 0 0 : R) * p.1 + (m 0 1 : R) * p.2 + (m 0 2 : R)
  let y := (m 1 0 : R) * p.1 + (m 1 1 : R) * p.2 + (m 1 2 : R)
  let w := (m 2 0 : R) * p.1 + (m 2 1 : R) * p.2 + (m 2 2 : R)
  (x / w, y / w)

/-- The unit square of normalised device coordinates. -/
def unit_square : Set (ℝ × ℝ) :=
  {p | 0 ≤ p.1 ∧ p.1 ≤ 1 ∧ 0 ≤ p.2 ∧ p.2 ≤ 1}

/-! ## Double-precision arithmetic -/

/-- Rounding of a number to the nearest integer, ties to the even one. -/
def round_even {K : Type} [LinearOrderedField K] [FloorRing K] (t : K) : ℤ :=
  if t - ⌊t⌋ < 1 / 2 then ⌊t⌋
  else if 1 / 2 < t - ⌊t⌋ then ⌊t⌋ + 1
  else if ⌊t⌋ % 2 = 0 then ⌊t⌋
  else ⌊t⌋ + 1

/-- Rounding of a number to the nearest double (IEEE 754 binary64, round to
nearest, ties to even): the number is scaled by the power of two that brings it
into the range of 53-bit significands, rounded to an integer and scaled back.
The range of exponents is not bounded, so this is the rounding of the machine
on results that neither overflow nor fall below the normal range. -/
def round_double {K : Type} [LinearOrderedField K] [FloorRing K] (x : K) : K :=
  if x = 0 then 0
  else round_even (x / 2 ^ (Int.log 2 |x| - 52)) * 2 ^ (Int.log 2 |x| - 52)

/-- A finite `double`, given by the number it represents; `K` is the field in
which exact results are taken before they are rounded. -/
structure Double (K : Type) where
  /-- The number represented. -/
  val : K

/-- The double `0.0`. -/
instance Double.instZero {K : Type} [LinearOrderedField K] [FloorRing K] : Zero (Double K) :=
  ⟨⟨0⟩⟩

/-- The double `1.0`. -/
instance Double.instOne {K : Type} [LinearOrderedField K] [FloorRing K] : One (Double K) :=
  ⟨⟨1⟩⟩

/-- Conversion of an integer constant to `double`. -/
instance Double.instNatCast {K : Type} [LinearOrderedField K] [FloorRing K] :
    NatCast (Double K) :=
  ⟨fun n => ⟨round_double (n : K)⟩⟩

/-- Addition of doubles: the exact sum, rounded. -/
instance Double.instAdd {K : Type} [LinearOrderedField K] [FloorRing K] : Add (Double K) :=
  ⟨fun a b => ⟨round_double (a.val + b.val)⟩⟩

/-- Multiplication of doubles: the exact product, rounded. -/
instance Double.instMul {K : Type} [LinearOrderedField K] [FloorRing K] : Mul (Double K) :=
  ⟨fun a b => ⟨round_double (a.val * b.val)⟩⟩

/-- Division of doubles: the exact quotient, rounded. -/
instance Double.instDiv {K : Type} [LinearOrderedField K] [FloorRing K] : Div (Double K) :=
  ⟨fun a b => ⟨round_double (a.val / b.val)⟩⟩

/-- The `log10` of libm on doubles, for a given exact logarithm: the double
nearest to the exact value. -/
def Double.log10 {K : Type} [LinearOrderedField K] [FloorRing K] (log10 : K → K)
    (x : Double K) : Double K :=
  ⟨round_double (log10 x.val)⟩

/-! ## Lemmas on the string functions -/

theorem char_eq_of_toNat_eq {a b : Char} (h : a.toNat = b.toNat) : a = b := by
  rw [← Char.ofNat_toNat a, ← Char.ofNat_toNat b, h]

theorem char_toNat_ne_zero {c : Char} (h : c ≠ NUL) : c.toNat ≠ 0 := by
  intro h0
  apply h
  apply char_eq_of_toNat_eq
  rw [h0]
  rfl

theorem strcmp_loop_eq_zero_iff (a b : List Char) (ha : NUL ∉ a) (hb : NUL ∉ b) :
    strcmp_loop a b = 0 ↔ a = b := by
  induction a generalizing b with
  | nil =>
    cases b with
    | nil => simp [strcmp_loop]
    | cons y ys =>
      have hy : y.toNat ≠ 0 := char_toNat_ne_zero (fun h => hb (by simp [h]))
      simp [strcmp_loop]
      omega
  | cons x xs ih =>
    have hx : x.toNat ≠ 0 := char_toNat_ne_zero (fun h => ha (by simp [h]))
    cases b with
    | nil => simp [strcmp_loop]; omega
    | cons y ys =>
      by_cases hxy : x = y
      · subst hxy
        have ha2 : NUL ∉ xs := fun h => ha (List.mem_cons_of_mem _ h)
        have hb2 : NUL ∉ ys := fun h => hb (List.mem_cons_of_mem _ h)
        simp [strcmp_loop, hx, ih ys ha2 hb2]
      · have hne : (x.toNat : Int) - (y.toNat : Int) ≠ 0 := by
          intro h
          apply hxy
          apply char_eq_of_toNat_eq
          omega
        simp [strcmp_loop, hxy, hne]

theorem strncmp_loop_eq_zero_iff (a b : List Char) (n : Nat) (ha : NUL ∉ a) (hb : NUL ∉ b)
    (hn : b.length < n) : strncmp_loop a b n = 0 ↔ a = b := by
  induction a generalizing b n with
  | nil =>
    cases b with
    | nil => cases n <;> simp [strncmp_loop]
    | cons y ys =>
      have hy : y.toNat ≠ 0 := char_toNat_ne_zero (fun h => hb (by simp [h]))
      cases n with
      | zero => simp at hn
      | succ k => simp [strncmp_loop]; omega
  | cons x xs ih =>
    have hx : x.toNat ≠ 0 := char_toNat_ne_zero (fun h => ha (by simp [h]))
    cases n with
    | zero => simp at hn
    | succ k =>
      cases b with
      | nil => simp [strncmp_loop]; omega
      | cons y ys =>
        by_cases hxy : x = y
        · subst hxy
          have ha2 : NUL ∉ xs := fun h => ha (List.mem_cons_of_mem _ h)
          have hb2 : NUL ∉ ys := fun h => hb (List.mem_cons_of_mem _ h)
          have hk : ys.length < k := by simp at hn; omega
          simp [strncmp_loop, hx, ih ys k ha2 hb2 hk]
        · have hne : (x.toNat : Int) - (y.toNat : Int) ≠ 0 := by
            intro h
            apply hxy
            apply char_eq_of_toNat_eq
            omega
          simp [strncmp_loop, hxy, hne]

theorem string_eq_of_toList_eq {s t : String} (h : s.toList = t.toList) : s = t := by
  cases s; cases t; simp_all [String.toList]

theorem strcmp_eq_zero_iff (s t : String) (hs : NUL ∉ s.toList) (ht : NUL ∉ t.toList) :
    strcmp s t = 0 ↔ s = t := by
  unfold strcmp
  rw [strcmp_loop_eq_zero_iff _ _ hs ht]
  exact ⟨string_eq_of_toList_eq, fun h => by rw [h]⟩

theorem strncmp_eq_zero_iff (s t : String) (n : Nat) (hs : NUL ∉ s.toList)
    (ht : NUL ∉ t.toList) (hn : t.length < n) : strncmp s t n = 0 ↔ s = t := by
  unfold strncmp
  rw [strncmp_loop_eq_zero_iff _ _ n hs ht hn]
  exact ⟨string_eq_of_toList_eq, fun h => by rw [h]⟩

/-! ## Lemmas on the dispatcher -/

theorem system_calls_append (xs ys : List Effect) :
    system_calls (xs ++ ys) = system_calls xs ++ system_calls ys := by
  induction xs with
  | nil => rfl
  | cons x xs ih => cases x <;> simp [system_calls, ih]

theorem system_calls_calculate_brightness {R : Type} [Zero R] [One R] [NatCast R] [Add R]
    [Div R] (log10 : R → R) (value : R) (unit : String) : system_calls (calculate_brightness log10 value unit).2 = [] := by
  unfold calculate_brightness
  split_ifs <;> rfl

/-- The command lines of one batch: those of the orientation branch taken,
followed by the backlight command of the light-level branch. -/
theorem system_calls_properties_changed {R : Type} [Field R] (log10 : R → R)
    (fmt_lf : R → String) (cache : Properties R) (changed : List String) :
    system_calls (properties_changed log10 fmt_lf cache changed) =
      (if "AccelerometerOrientation" ∈ changed then
        (if strcmp cache.AccelerometerOrientation "normal" = 0 then
          rotate_command "normal" :: transform_calls [[1, 0, 0], [0, 1, 0], [0, 0, 1]]
        else if strcmp cache.AccelerometerOrientation "left-up" = 0 then
          rotate_command "left" :: transform_calls [[0, -1, 1], [1, 0, 0], [0, 0, 1]]
        else if strcmp cache.AccelerometerOrientation "right-up" = 0 then
          rotate_command "right" :: transform_calls [[0, 1, 0], [-1, 0, 1], [0, 0, 1]]
        else if strcmp cache.AccelerometerOrientation "bottom-up" = 0 then
          rotate_command "inverted" :: transform_calls [[-1, 0, 1], [0, -1, 1], [0, 0, 1]]
        else [])
      else []) ++ backlight_calls log10 fmt_lf cache changed := by
  have e1 : system_calls (Effect.system "xrandr --output eDP1 --rotate normal" ::
      set_transforms NORMAL_COORDS) =
      rotate_command "normal" :: transform_calls [[1, 0, 0], [0, 1, 0], [0, 0, 1]] := by decide
  have e2 : system_calls (Effect.system "xrandr --output eDP1 --rotate left" ::
      set_transforms LEFT_COORDS) =
      rotate_command "left" :: transform_calls [[0, -1, 1], [1, 0, 0], [0, 0, 1]] := by decide
  have e3 : system_calls (Effect.system "xrandr --output eDP1 --rotate right" ::
      set_transforms RIGHT_COORDS) =
      rotate_command "right" :: transform_calls [[0, 1, 0], [-1, 0, 1], [0, 0, 1]] := by decide
  have e4 : system_calls (Effect.system "xrandr --output eDP1 --rotate inverted" ::
      set_transforms INVERT_COORDS) =
      rotate_command "inverted" :: transform_calls [[-1, 0, 1], [0, -1, 1], [0, 0, 1]] := by
    decide
  have hp : ∀ s : String, system_calls [Effect.print s] = [] := fun _ => rfl
  have hn : system_calls [] = [] := rfl
  have hs : ∀ s b : String, system_calls [Effect.print s, Effect.system b] = [b] :=
    fun _ _ => rfl
  have hb := system_calls_calculate_brightness log10 cache.LightLevel cache.LightLevelUnit
  have h6 : ((LOWER_BACKLIGHT : Nat) : R) = 6 := by simp [LOWER_BACKLIGHT]
  unfold properties_changed backlight_calls
  simp only [system_calls_append]
  split_ifs <;>
    simp only [system_calls_append, e1, e2, e3, e4, hp, hn, hs, hb, h6, List.nil_append,
      List.append_nil,
      List.cons_append]

theorem calculate_brightness_lux {R : Type} [Zero R] [One R] [NatCast R] [Add R] [Div R]
    (log10 : R → R) (value : R) :
    calculate_brightness log10 value "lux" = (log10 (value + 1) / 5, []) := by
  have h : strncmp "lux" "lux" 4 = 0 := by decide
  simp [calculate_brightness, h]

theorem calculate_brightness_not_lux {R : Type} [Zero R] [One R] [NatCast R] [Add R]
    [Div R] (log10 : R → R) (value : R) (unit : String) (hnul : NUL ∉ unit.toList) (hne : unit ≠ "lux") :
    (calculate_brightness log10 value unit).1 = 0 := by
  have h : strncmp unit "lux" 4 ≠ 0 := by
    rw [Ne, strncmp_eq_zero_iff unit "lux" 4 hnul (by decide) (by decide)]
    exact hne
  simp [calculate_brightness, h]

/-! ## The claims -/

/-- C1: on an orientation change with one of the four known orientation values,
the commands issued are the display-rotation command of the table entry,
followed by one set-transform command per device of the three-device list, in
list order, each carrying the entry's matrix as 9 space-separated values (and
then the backlight command, when the batch also has the light level). -/
theorem orientation_change_commands {R : Type} [Field R] (log10 : R → R)
    (fmt_lf : R → String) (cache : Properties R) (changed : List String)
    (entry : String × String × List (List Int)) (hentry : entry ∈ orientation_table)
    (hkey : "AccelerometerOrientation" ∈ changed)
    (hval : cache.AccelerometerOrientation = entry.1) :
    system_calls (properties_changed log10 fmt_lf cache changed) =
      rotate_command entry.2.1 :: transform_calls entry.2.2 ++
        backlight_calls log10 fmt_lf cache changed := by
  rw [system_calls_properties_changed, if_pos hkey, hval]
  simp only [orientation_table, List.mem_cons, List.mem_singleton, List.not_mem_nil,
    or_false] at hentry
  rcases hentry with h | h | h | h <;> subst h <;> rfl

/-- C1, at "left-up" with only the orientation key in the batch: the four
command lines in full. -/
theorem orientation_change_commands_witness :
    (("left-up", "left", [[0, -1, 1], [1, 0, 0], [0, 0, 1]]) :
        String × String × List (List Int)) ∈ orientation_table ∧
    system_calls (properties_changed (fun x : ℚ => x) (fun _ => "")
      ⟨true, "left-up", false, 0, "lux"⟩ ["AccelerometerOrientation"]) =
      ["xrandr --output eDP1 --rotate left",
       "xinput set-prop 'Atmel' 'Coordinate Transformation Matrix' 0 -1 1 1 0 0 0 0 1",
       "xinput set-prop 'Wacom ISDv4 12C Pen stylus' 'Coordinate Transformation Matrix' 0 -1 1 1 0 0 0 0 1",
       "xinput set-prop 'Wacom ISDv4 12C Pen eraser' 'Coordinate Transformation Matrix' 0 -1 1 1 0 0 0 0 1"] :=
  ⟨by decide,
   (orientation_change_commands (fun x : ℚ => x) (fun _ => "")
     ⟨true, "left-up", false, 0, "lux"⟩ ["AccelerometerOrientation"]
     ("left-up", "left", [[0, -1, 1], [1, 0, 0], [0, 0, 1]]) (by decide) (by decide)
     rfl).trans (by decide)⟩

/-- C2: when the orientation value is none of the four literals, an orientation
change issues no rotation and no transform command: the only command lines of
the batch are those of its light-level change, a batch without the light level
issues none, and the batch with only the orientation key does nothing but print
the diagnostic. -/
theorem unknown_orientation_no_command {R : Type} [Field R] (log10 : R → R)
    (fmt_lf : R → String) (cache : Properties R) (changed : List String)
    (hnul : NUL ∉ cache.AccelerometerOrientation.toList)
    (hval : cache.AccelerometerOrientation ∉ ["normal", "left-up", "right-up", "bottom-up"]) :
    system_calls (properties_changed log10 fmt_lf cache changed) =
      backlight_calls log10 fmt_lf cache changed ∧
    ("LightLevel" ∉ changed → system_calls (properties_changed log10 fmt_lf cache changed) = []) ∧
    properties_changed log10 fmt_lf cache ["AccelerometerOrientation"] =
      [Effect.print "Unknown command\n"] := by
  simp only [List.mem_cons, List.mem_singleton, List.not_mem_nil, or_false, not_or] at hval
  obtain ⟨h1, h2, h3, h4⟩ := hval
  have c1 : strcmp cache.AccelerometerOrientation "normal" ≠ 0 := by
    rw [Ne, strcmp_eq_zero_iff _ _ hnul (by decide)]; exact h1
  have c2 : strcmp cache.AccelerometerOrientation "left-up" ≠ 0 := by
    rw [Ne, strcmp_eq_zero_iff _ _ hnul (by decide)]; exact h2
  have c3 : strcmp cache.AccelerometerOrientation "right-up" ≠ 0 := by
    rw [Ne, strcmp_eq_zero_iff _ _ hnul (by decide)]; exact h3
  have c4 : strcmp cache.AccelerometerOrientation "bottom-up" ≠ 0 := by
    rw [Ne, strcmp_eq_zero_iff _ _ hnul (by decide)]; exact h4
  have key : system_calls (properties_changed log10 fmt_lf cache changed) =
      backlight_calls log10 fmt_lf cache changed := by
    rw [system_calls_properties_changed]
    simp [c1, c2, c3, c4]
  refine ⟨key, ?_, ?_⟩
  · intro hl
    rw [key]
    simp [backlight_calls, hl]
  · have m1 : "HasAccelerometer" ∉ ["AccelerometerOrientation"] := by decide
    have m2 : "HasAmbientLight" ∉ ["AccelerometerOrientation"] := by decide
    have m3 : "LightLevel" ∉ ["AccelerometerOrientation"] := by decide
    have m4 : "AccelerometerOrientation" ∈ ["AccelerometerOrientation"] := by decide
    unfold properties_changed
    rw [if_neg m1, if_neg m2, if_neg m3, if_pos m4]
    simp [c1, c2, c3, c4]

/-- C2, at the orientation value "Normal" (capital N). -/
theorem unknown_orientation_no_command_witness :
    (NUL ∉ "Normal".toList ∧ "Normal" ∉ ["normal", "left-up", "right-up", "bottom-up"]) ∧
    (system_calls (properties_changed (fun x : ℚ => x) (fun _ => "")
        ⟨true, "Normal", false, 0, "lux"⟩ ["AccelerometerOrientation", "HasAccelerometer"]) =
      backlight_calls (fun x : ℚ => x) (fun _ => "")
        ⟨true, "Normal", false, 0, "lux"⟩ ["AccelerometerOrientation", "HasAccelerometer"] ∧
    ("LightLevel" ∉ ["AccelerometerOrientation", "HasAccelerometer"] →
      system_calls (properties_changed (fun x : ℚ => x) (fun _ => "")
        ⟨true, "Normal", false, 0, "lux"⟩ ["AccelerometerOrientation", "HasAccelerometer"]) =
      []) ∧
    properties_changed (fun x : ℚ => x) (fun _ => "")
        ⟨true, "Normal", false, 0, "lux"⟩ ["AccelerometerOrientation"] =
      [Effect.print "Unknown command\n"]) :=
  ⟨⟨by decide, by decide⟩,
   unknown_orientation_no_command (fun x : ℚ => x) (fun _ => "")
     ⟨true, "Normal", false, 0, "lux"⟩ ["AccelerometerOrientation", "HasAccelerometer"]
     (by decide) (by decide)⟩

/-! ### Values of the decimal logarithm used below -/

theorem logb_ten_pow (k : ℕ) : Real.logb 10 ((10 : ℝ) ^ k) = k := by
  rw [Real.logb_pow, Real.logb_self_eq_one (by norm_num), mul_one]

theorem logb_ten_ten : Real.logb 10 (10 : ℝ) = 1 :=
  Real.logb_self_eq_one (by norm_num)

theorem logb_ten_hundred : Real.logb 10 (100 : ℝ) = 2 := by
  have h := logb_ten_pow 2
  norm_num at h
  exact h

theorem logb_ten_hundred_thousand : Real.logb 10 (100000 : ℝ) = 5 := by
  have h := logb_ten_pow 5
  norm_num at h
  exact h

theorem logb_ten_mono {x y : ℝ} (hx : 0 < x) (hxy : x ≤ y) :
    Real.logb 10 x ≤ Real.logb 10 y :=
  (Real.logb_le_logb (by norm_num) hx (lt_of_lt_of_le hx hxy)).2 hxy

/-- C3: for every value and every unit string other than "lux",
`calculate_brightness` returns 0, so the setpoint derived from it is
`LOWER_BACKLIGHT` = 6 and the backlight command of a light-level change carries
6; and `calculate_brightness (0, "lux")` is 0. -/
theorem calculate_brightness_unknown_unit (log10 : ℝ → ℝ) (fmt_lf : ℝ → String) (value : ℝ)
    (unit : String) (hnul : NUL ∉ unit.toList) (hne : unit ≠ "lux") :
    (calculate_brightness log10 value unit).1 = 0 ∧
    (calculate_brightness log10 value unit).1 * 10 + (LOWER_BACKLIGHT : ℝ) = 6 ∧
    (∀ (acc light : Bool) (orientation : String),
      system_calls (properties_changed log10 fmt_lf ⟨acc, orientation, light, value, unit⟩
        ["LightLevel"]) = ["xbacklight -set " ++ fmt_lf 6]) ∧
    (calculate_brightness (Real.logb 10) (0 : ℝ) "lux").1 = 0 := by
  have h0 := calculate_brightness_not_lux log10 value unit hnul hne
  refine ⟨h0, ?_, ?_, ?_⟩
  · rw [h0]; norm_num [LOWER_BACKLIGHT]
  · intro acc light orientation
    have m : "AccelerometerOrientation" ∉ ["LightLevel"] := by decide
    have l : "LightLevel" ∈ ["LightLevel"] := by decide
    rw [system_calls_properties_changed, if_neg m]
    simp only [backlight_calls, if_pos l, h0]
    norm_num
  · rw [calculate_brightness_lux]
    simp

/-- C3, at the units "", "lu", "luxx", "Lux" and "lux " with value 1234. -/
theorem calculate_brightness_unknown_unit_witness :
    (calculate_brightness (Real.logb 10) (1234 : ℝ) "").1 = 0 ∧
    (calculate_brightness (Real.logb 10) (1234 : ℝ) "lu").1 = 0 ∧
    (calculate_brightness (Real.logb 10) (1234 : ℝ) "luxx").1 = 0 ∧
    (calculate_brightness (Real.logb 10) (1234 : ℝ) "Lux").1 = 0 ∧
    (calculate_brightness (Real.logb 10) (1234 : ℝ) "lux ").1 = 0 ∧
    (calculate_brightness (Real.logb 10) (1234 : ℝ) "luxx").1 * 10 + (LOWER_BACKLIGHT : ℝ) = 6 :=
  ⟨(calculate_brightness_unknown_unit (Real.logb 10) (fun _ => "") 1234 ""
      (by decide) (by decide)).1,
   (calculate_brightness_unknown_unit (Real.logb 10) (fun _ => "") 1234 "lu"
      (by decide) (by decide)).1,
   (calculate_brightness_unknown_unit (Real.logb 10) (fun _ => "") 1234 "luxx"
      (by decide) (by decide)).1,
   (calculate_brightness_unknown_unit (Real.logb 10) (fun _ => "") 1234 "Lux"
      (by decide) (by decide)).1,
   (calculate_brightness_unknown_unit (Real.logb 10) (fun _ => "") 1234 "lux "
      (by decide) (by decide)).1,
   (calculate_brightness_unknown_unit (Real.logb 10) (fun _ => "") 1234 "luxx"
      (by decide) (by decide)).2.1⟩

/-- C4: with unit "lux" the brightness is `log10 (level + 1) / 5` over the
reals, and the backlight command issued on a light-level change carries
`calculate_brightness (level, unit) * 10 + 6`; level 0 gives brightness 0,
level 9 gives 0.2, level 99999 gives 1, and level 99 gives setpoint 10. -/
theorem brightness_curve (fmt_lf : ℝ → String) (cache : Properties ℝ) (changed : List String)
    (level : ℝ) (hkey : "LightLevel" ∈ changed) :
    (calculate_brightness (Real.logb 10) level "lux").1 = Real.logb 10 (level + 1) / 5 ∧
    (system_calls (properties_changed (Real.logb 10) fmt_lf cache changed)).getLast? =
      some ("xbacklight -set " ++ fmt_lf
        ((calculate_brightness (Real.logb 10) cache.LightLevel cache.LightLevelUnit).1 * 10
          + 6)) ∧
    (calculate_brightness (Real.logb 10) (0 : ℝ) "lux").1 = 0 ∧
    (calculate_brightness (Real.logb 10) (9 : ℝ) "lux").1 = 1 / 5 ∧
    (calculate_brightness (Real.logb 10) (99999 : ℝ) "lux").1 = 1 ∧
    (calculate_brightness (Real.logb 10) (99 : ℝ) "lux").1 * 10 + (LOWER_BACKLIGHT : ℝ) = 10 := by
  refine ⟨?_, ?_, ?_, ?_, ?_, ?_⟩
  · rw [calculate_brightness_lux]
  · rw [system_calls_properties_changed]
    simp [backlight_calls, hkey]
  · rw [calculate_brightness_lux]; simp
  · rw [calculate_brightness_lux]
    norm_num [logb_ten_ten]
  · rw [calculate_brightness_lux]
    norm_num [logb_ten_hundred_thousand]
  · rw [calculate_brightness_lux]
    norm_num [logb_ten_hundred, LOWER_BACKLIGHT]

/-- C4, for the batch with only the light level, level 99 and unit "lux": the
command carries the setpoint 10. -/
theorem brightness_curve_witness :
    "LightLevel" ∈ ["LightLevel"] ∧
    (system_calls (properties_changed (Real.logb 10) (fun x => if x = 10 then "10" else "")
      ⟨false, "normal", true, 99, "lux"⟩ ["LightLevel"])).getLast? =
      some ("xbacklight -set " ++ (fun x : ℝ => if x = 10 then "10" else "") 10) := by
  have h := brightness_curve (fun x => if x = 10 then "10" else "")
    ⟨false, "normal", true, 99, "lux"⟩ ["LightLevel"] 99 (by decide)
  refine ⟨by decide, ?_⟩
  have h10 : (calculate_brightness (Real.logb 10) (99 : ℝ) "lux").1 * 10 + 6 = 10 := by
    have := h.2.2.2.2.2
    simpa [LOWER_BACKLIGHT] using this
  rw [h.2.1]
  simp only [h10]

/-- C5: with unit "lux", `calculate_brightness` is non-decreasing in the level
on levels at least 0. -/
theorem calculate_brightness_monotone (a b : ℝ) (ha : 0 ≤ a) (hab : a ≤ b) :
    (calculate_brightness (Real.logb 10) a "lux").1 ≤
      (calculate_brightness (Real.logb 10) b "lux").1 := by
  rw [calculate_brightness_lux, calculate_brightness_lux]
  have h : Real.logb 10 (a + 1) ≤ Real.logb 10 (b + 1) :=
    logb_ten_mono (by linarith) (by linarith)
  show Real.logb 10 (a + 1) / 5 ≤ Real.logb 10 (b + 1) / 5
  linarith

/-- C5, at the levels 9 and 99. -/
theorem calculate_brightness_monotone_witness :
    ((0 : ℝ) ≤ 9 ∧ (9 : ℝ) ≤ 99) ∧
    (calculate_brightness (Real.logb 10) (9 : ℝ) "lux").1 ≤
      (calculate_brightness (Real.logb 10) (99 : ℝ) "lux").1 :=
  ⟨⟨by norm_num, by norm_num⟩,
   calculate_brightness_monotone 9 99 (by norm_num) (by norm_num)⟩

/-! ### The setpoint on doubles -/

section Rounding

variable {K : Type} [LinearOrderedField K] [FloorRing K]

end Rounding


/-- C6: the checks of one batch are independent.  A batch with the orientation
key (the value being an entry of the table) and the light-level key issues the
rotation command, the three transform commands and the backlight command, and
nothing else, whatever other keys it has; for "right-up" with level 9 lux these
are rotate right, three transforms with 0 1 0 -1 0 1 0 0 1, and backlight 8; a
batch with neither key issues no command. -/
theorem batch_checks_independent (fmt_lf : ℝ → String) (cache : Properties ℝ)
    (changed : List String) (entry : String × String × List (List Int))
    (hentry : entry ∈ orientation_table)
    (hkey : "AccelerometerOrientation" ∈ changed) (hlight : "LightLevel" ∈ changed)
    (hval : cache.AccelerometerOrientation = entry.1) :
    system_calls (properties_changed (Real.logb 10) fmt_lf cache changed) =
      rotate_command entry.2.1 :: transform_calls entry.2.2 ++
        ["xbacklight -set " ++ fmt_lf
          ((calculate_brightness (Real.logb 10) cache.LightLevel cache.LightLevelUnit).1 * 10
            + 6)] ∧
    (∀ acc light : Bool,
      system_calls (properties_changed (Real.logb 10) fmt_lf
        ⟨acc, "right-up", light, 9, "lux"⟩ changed) =
      ["xrandr --output eDP1 --rotate right",
       "xinput set-prop 'Atmel' 'Coordinate Transformation Matrix' 0 1 0 -1 0 1 0 0 1",
       "xinput set-prop 'Wacom ISDv4 12C Pen stylus' 'Coordinate Transformation Matrix' 0 1 0 -1 0 1 0 0 1",
       "xinput set-prop 'Wacom ISDv4 12C Pen eraser' 'Coordinate Transformation Matrix' 0 1 0 -1 0 1 0 0 1",
       "xbacklight -set " ++ fmt_lf 8]) ∧
    (∀ other : List String, "AccelerometerOrientation" ∉ other → "LightLevel" ∉ other →
      system_calls (properties_changed (Real.logb 10) fmt_lf cache other) = []) := by
  refine ⟨?_, ?_, ?_⟩
  · rw [system_calls_properties_changed, if_pos hkey, hval]
    simp only [orientation_table, List.mem_cons, List.mem_singleton, List.not_mem_nil,
      or_false] at hentry
    simp only [backlight_calls, if_pos hlight]
    rcases hentry with h | h | h | h <;> subst h <;> rfl
  · intro acc light
    have c1 : strcmp "right-up" "normal" ≠ 0 := by decide
    have c2 : strcmp "right-up" "left-up" ≠ 0 := by decide
    have c3 : strcmp "right-up" "right-up" = 0 := by decide
    have t : rotate_command "right" :: transform_calls [[0, 1, 0], [-1, 0, 1], [0, 0, 1]] =
        ["xrandr --output eDP1 --rotate right",
         "xinput set-prop 'Atmel' 'Coordinate Transformation Matrix' 0 1 0 -1 0 1 0 0 1",
         "xinput set-prop 'Wacom ISDv4 12C Pen stylus' 'Coordinate Transformation Matrix' 0 1 0 -1 0 1 0 0 1",
         "xinput set-prop 'Wacom ISDv4 12C Pen eraser' 'Coordinate Transformation Matrix' 0 1 0 -1 0 1 0 0 1"] := by
      decide
    have h8 : (calculate_brightness (Real.logb 10) (9 : ℝ) "lux").1 * 10 + 6 = 8 := by
      rw [calculate_brightness_lux]
      norm_num [logb_ten_ten]
    rw [system_calls_properties_changed, if_pos hkey]
    simp only [backlight_calls, if_pos hlight, if_neg c1, if_neg c2, if_pos c3, t, h8]
    rfl
  · intro other h1 h2
    rw [system_calls_properties_changed, if_neg h1]
    simp [backlight_calls, h2]

/-- C6, for the batch with all four keys, orientation "right-up", level 9 lux. -/
theorem batch_checks_independent_witness :
    ((("right-up", "right", [[0, 1, 0], [-1, 0, 1], [0, 0, 1]]) :
        String × String × List (List Int)) ∈ orientation_table ∧
      "AccelerometerOrientation" ∈
        ["HasAccelerometer", "AccelerometerOrientation", "HasAmbientLight", "LightLevel"] ∧
      "LightLevel" ∈
        ["HasAccelerometer", "AccelerometerOrientation", "HasAmbientLight", "LightLevel"]) ∧
    system_calls (properties_changed (Real.logb 10) (fun x => if x = 8 then "8" else "")
      ⟨true, "right-up", true, 9, "lux"⟩
      ["HasAccelerometer", "AccelerometerOrientation", "HasAmbientLight", "LightLevel"]) =
    ["xrandr --output eDP1 --rotate right",
     "xinput set-prop 'Atmel' 'Coordinate Transformation Matrix' 0 1 0 -1 0 1 0 0 1",
     "xinput set-prop 'Wacom ISDv4 12C Pen stylus' 'Coordinate Transformation Matrix' 0 1 0 -1 0 1 0 0 1",
     "xinput set-prop 'Wacom ISDv4 12C Pen eraser' 'Coordinate Transformation Matrix' 0 1 0 -1 0 1 0 0 1",
     "xbacklight -set " ++ (fun x : ℝ => if x = 8 then "8" else "") 8] :=
  ⟨⟨by decide, by decide, by decide⟩,
   (batch_checks_independent (fun x => if x = 8 then "8" else "")
    ⟨true, "right-up", true, 9, "lux"⟩
    ["HasAccelerometer", "AccelerometerOrientation", "HasAmbientLight", "LightLevel"]
    ("right-up", "right", [[0, 1, 0], [-1, 0, 1], [0, 0, 1]])
    (by decide) (by decide) (by decide) rfl).2.1 true true⟩

/-! ### Sensor session -/

/-- C7: a failed claim is fatal and stops the claim sequence.  When
`ClaimAccelerometer` fails, the handler logs a warning unless the failure is a
cancellation, requests termination of the loop and returns: `ClaimLight` is not
called and the initial values are not read.  When `ClaimAccelerometer` succeeds
and `ClaimLight` fails, it does the same after the second call.  A warning is
logged if and only if the failure is not a cancellation, and the main loop
dispatches no later event. -/
theorem claim_failure_fatal {R : Type} (fmt_lf : R → String) (env : Appearance R)
    (s : Session) (proxy : Proxy) (error : GError) (hproxy : env.new_proxy = some proxy)
    (hfail : env.claim_accelerometer = CallResult.failed error ∨
      (env.claim_accelerometer = CallResult.ok ∧ env.claim_light = CallResult.failed error)) :
    ∃ s1 t, appeared_cb fmt_lf env s = some (s1, t) ∧
      (env.claim_accelerometer = CallResult.failed error →
        t = [Effect.print "+++ iio-sensor-proxy appeared\n",
            Effect.signal_connect "g-properties-changed",
            Effect.call_sync "ClaimAccelerometer"] ++
          (if error.cancelled then []
            else [Effect.warning ("Failed to claim accelerometer: " ++ cstr error.message)]) ++
          [Effect.main_loop_quit]) ∧
      (env.claim_accelerometer = CallResult.ok →
        t = [Effect.print "+++ iio-sensor-proxy appeared\n",
            Effect.signal_connect "g-properties-changed",
            Effect.call_sync "ClaimAccelerometer",
            Effect.call_sync "ClaimLight"] ++
          (if error.cancelled then []
            else [Effect.warning ("Failed to claim light sensor: " ++ cstr error.message)]) ++
          [Effect.main_loop_quit]) ∧
      Effect.main_loop_quit ∈ t ∧
      (env.claim_accelerometer = CallResult.failed error →
        Effect.call_sync "ClaimLight" ∉ t) ∧
      (∀ e ∈ print_initial_values fmt_lf env.cache, e ∉ t) ∧
      ((∃ text, Effect.warning text ∈ t) ↔ error.cancelled = false) ∧
      session_state s1 = SensorSessionState.ConnectedUnclaimed ∧
      (∀ rest, main_loop fmt_lf s (Event.appeared env :: rest) = some (s1, t)) := by
  have hinit : ∀ e ∈ print_initial_values fmt_lf env.cache, ∃ text, e = Effect.print text ∧
      text ≠ "+++ iio-sensor-proxy appeared\n" := by
    intro e he
    unfold print_initial_values at he
    split_ifs at he <;>
      simp only [List.mem_append, List.mem_singleton, List.cons_append, List.nil_append,
        List.mem_cons, List.not_mem_nil, or_false] at he
    all_goals
      rcases he with he | he <;> subst he <;> refine ⟨_, rfl, ?_⟩ <;> intro hc <;>
        have := congrArg (fun x : String => x.toList.head?) hc <;>
        simp [String.toList] at this
  have hnot : ∀ (l : List Effect), (∀ x ∈ l, ∀ text, x = Effect.print text →
      text = "+++ iio-sensor-proxy appeared\n") →
      ∀ e ∈ print_initial_values fmt_lf env.cache, e ∉ l := by
    intro l hl e he hmem
    obtain ⟨text, rfl, hne⟩ := hinit e he
    exact hne (hl _ hmem text rfl)
  rcases hfail with h1 | ⟨h1, h2⟩
  · refine ⟨⟨some proxy, false, false⟩, _, ?_, fun _ => rfl, ?_, ?_, ?_, ?_, ?_, ?_, ?_⟩
    · unfold appeared_cb
      simp only [hproxy, h1]
      cases error.cancelled <;> rfl
    · intro h; rw [h1] at h; cases h
    · simp
    · intro _
      cases error.cancelled <;> simp
    · apply hnot
      intro x hx text hxt
      subst hxt
      cases hc : error.cancelled <;> simp [hc] at hx <;> exact hx
    · cases error.cancelled <;> simp
    · rfl
    · intro rest
      unfold main_loop step appeared_cb
      simp only [hproxy, h1]
      cases error.cancelled <;> simp
  · refine ⟨⟨some proxy, true, false⟩, _, ?_, ?_, fun _ => rfl, ?_, ?_, ?_, ?_, ?_, ?_⟩
    · unfold appeared_cb
      simp only [hproxy, h1, h2]
      cases error.cancelled <;> rfl
    · intro h; rw [h1] at h; cases h
    · simp
    · intro h; rw [h1] at h; cases h
    · apply hnot
      intro x hx text hxt
      subst hxt
      cases hc : error.cancelled <;> simp [hc] at hx <;> exact hx
    · cases error.cancelled <;> simp
    · rfl
    · intro rest
      unfold main_loop step appeared_cb
      simp only [hproxy, h1, h2]
      cases error.cancelled <;> simp

/-- C7, for a refused accelerometer claim and for a cancelled light claim. -/
theorem claim_failure_fatal_witness :
    (∃ s1 t, appeared_cb (fun _ : ℚ => "")
        ⟨some ⟨1⟩, CallResult.failed ⟨false, "refused"⟩, CallResult.ok,
          ⟨true, "normal", true, 0, "lux"⟩⟩ initial_session = some (s1, t) ∧
      t = [Effect.print "+++ iio-sensor-proxy appeared\n",
        Effect.signal_connect "g-properties-changed",
        Effect.call_sync "ClaimAccelerometer",
        Effect.warning "Failed to claim accelerometer: refused",
        Effect.main_loop_quit]) ∧
    (∃ s1 t, appeared_cb (fun _ : ℚ => "")
        ⟨some ⟨1⟩, CallResult.ok, CallResult.failed ⟨true, "cancelled"⟩,
          ⟨true, "normal", true, 0, "lux"⟩⟩ initial_session = some (s1, t) ∧
      t = [Effect.print "+++ iio-sensor-proxy appeared\n",
        Effect.signal_connect "g-properties-changed",
        Effect.call_sync "ClaimAccelerometer",
        Effect.call_sync "ClaimLight",
        Effect.main_loop_quit]) := by
  constructor
  · obtain ⟨s1, t, h, ht, _⟩ := claim_failure_fatal (fun _ : ℚ => "")
      ⟨some ⟨1⟩, CallResult.failed ⟨false, "refused"⟩, CallResult.ok,
        ⟨true, "normal", true, 0, "lux"⟩⟩ initial_session ⟨1⟩ ⟨false, "refused"⟩ rfl
      (Or.inl rfl)
    exact ⟨s1, t, h, (ht rfl).trans (by decide)⟩
  · obtain ⟨s1, t, h, _, ht, _⟩ := claim_failure_fatal (fun _ : ℚ => "")
      ⟨some ⟨1⟩, CallResult.ok, CallResult.failed ⟨true, "cancelled"⟩,
        ⟨true, "normal", true, 0, "lux"⟩⟩ initial_session ⟨1⟩ ⟨true, "cancelled"⟩ rfl
      (Or.inr ⟨rfl, rfl⟩)
    exact ⟨s1, t, h, (ht rfl).trans (by decide)⟩

theorem method_calls_append (xs ys : List Effect) :
    method_calls (xs ++ ys) = method_calls xs ++ method_calls ys := by
  induction xs with
  | nil => rfl
  | cons x xs ih => cases x <;> simp [method_calls, ih]

theorem method_calls_print_initial_values {R : Type} (fmt_lf : R → String)
    (cache : Properties R) : method_calls (print_initial_values fmt_lf cache) = [] := by
  unfold print_initial_values
  split_ifs <;> rfl

theorem quit_not_mem_print_initial_values {R : Type} (fmt_lf : R → String)
    (cache : Properties R) : Effect.main_loop_quit ∉ print_initial_values fmt_lf cache := by
  unfold print_initial_values
  split_ifs <;> simp

/-- One event of a run in which every call succeeds: what its callback does,
from any session state. -/
theorem step_of_claims_succeed {R : Type} (fmt_lf : R → String) (e : Event R)
    (h : claims_succeed e) (s : Session) :
    ∃ s1 t, step fmt_lf s e = some (s1, t) ∧ Effect.main_loop_quit ∉ t ∧
      method_calls t = expected_calls e ∧ session_state s1 = expected_state e ∧
      (s1.iio_proxy = none ↔ e = Event.vanished) := by
  cases e with
  | appeared env =>
    obtain ⟨hp, ha, hl⟩ := h
    obtain ⟨proxy, hproxy⟩ := Option.isSome_iff_exists.mp hp
    refine ⟨⟨some proxy, true, true⟩,
      [Effect.print "+++ iio-sensor-proxy appeared\n",
        Effect.signal_connect "g-properties-changed",
        Effect.call_sync "ClaimAccelerometer"] ++ [Effect.call_sync "ClaimLight"] ++
        print_initial_values fmt_lf env.cache, ?_, ?_, ?_, rfl, ?_⟩
    · unfold step appeared_cb
      simp only [hproxy, ha, hl]
    · have := quit_not_mem_print_initial_values fmt_lf env.cache
      simp [this]
    · simp [method_calls_append, method_calls_print_initial_values, method_calls,
        expected_calls]
    · simp
  | vanished =>
    cases hs : s.iio_proxy with
    | none =>
      refine ⟨s, [], ?_, by simp, rfl, ?_, ?_⟩
      · simp [step, vanished_cb, hs]
      · simp [session_state, hs, expected_state]
      · simp [hs]
    | some p =>
      refine ⟨⟨none, false, false⟩,
        [Effect.print "--- iio-sensor-proxy vanished, waiting for it to appear\n"],
        ?_, ?_, ?_, rfl, ?_⟩
      · simp only [step, vanished_cb, hs]
      · simp
      · rfl
      · simp

/-- C8: the recovery cycle.  In a sequence of appeared / vanished events in
which all calls succeed, every appeared event calls `ClaimAccelerometer` and
then `ClaimLight`, once each, and leaves the session Claimed with a proxy
handle; every vanished event calls nothing (no release) and leaves the session
Disconnected without a handle; no event requests termination of the loop, so
the loop dispatches the whole sequence, and the session ends in the state of
the last event. -/
theorem recovery_cycle {R : Type} (fmt_lf : R → String) (s0 : Session)
    (events : List (Event R)) (h : ∀ e ∈ events, claims_succeed e) :
    (∀ e ∈ events, ∀ s : Session, ∃ s1 t, step fmt_lf s e = some (s1, t) ∧
      Effect.main_loop_quit ∉ t ∧ method_calls t = expected_calls e ∧
      session_state s1 = expected_state e ∧ (s1.iio_proxy = none ↔ e = Event.vanished)) ∧
    (∃ s t, main_loop fmt_lf s0 events = some (s, t) ∧ Effect.main_loop_quit ∉ t ∧
      method_calls t = events.flatMap expected_calls ∧
      (∀ pre e, events = pre ++ [e] →
        session_state s = expected_state e ∧ (s.iio_proxy = none ↔ e = Event.vanished))) := by
  refine ⟨fun e he s => step_of_claims_succeed fmt_lf e (h e he) s, ?_⟩
  induction events generalizing s0 with
  | nil =>
    refine ⟨s0, [], rfl, by simp, rfl, ?_⟩
    intro pre e hpe
    simp at hpe
  | cons e es ih =>
    obtain ⟨s1, t1, hstep, hq1, hc1, hs1, hp1⟩ :=
      step_of_claims_succeed fmt_lf e (h e (List.mem_cons_self _ _)) s0
    obtain ⟨s2, t2, hrun, hq2, hc2, hlast⟩ :=
      ih s1 (fun x hx => h x (List.mem_cons_of_mem _ hx))
    refine ⟨s2, t1 ++ t2, ?_, ?_, ?_, ?_⟩
    · simp only [main_loop, hstep, if_neg hq1, hrun]
    · simp [hq1, hq2]
    · simp [method_calls_append, hc1, hc2]
    · intro pre x hpx
      cases pre with
      | nil =>
        simp only [List.nil_append, List.cons.injEq] at hpx
        obtain ⟨rfl, rfl⟩ := hpx
        simp only [main_loop, Option.some.injEq, Prod.mk.injEq] at hrun
        obtain ⟨rfl, _⟩ := hrun
        exact ⟨hs1, hp1⟩
      | cons y ys =>
        simp only [List.cons_append, List.cons.injEq] at hpx
        exact hlast ys x hpx.2

/-- C8, for appear, vanish, appear from the initial session: the session ends
Claimed, both claims were made twice, and no termination was requested. -/
theorem recovery_cycle_witness :
    (∀ e ∈ ([Event.appeared ⟨some ⟨1⟩, CallResult.ok, CallResult.ok,
          ⟨true, "normal", true, 0, "lux"⟩⟩, Event.vanished,
        Event.appeared ⟨some ⟨2⟩, CallResult.ok, CallResult.ok,
          ⟨true, "normal", true, 0, "lux"⟩⟩] : List (Event ℚ)), claims_succeed e) ∧
    ∃ s t, main_loop (fun _ : ℚ => "") initial_session
        [Event.appeared ⟨some ⟨1⟩, CallResult.ok, CallResult.ok,
          ⟨true, "normal", true, 0, "lux"⟩⟩, Event.vanished,
        Event.appeared ⟨some ⟨2⟩, CallResult.ok, CallResult.ok,
          ⟨true, "normal", true, 0, "lux"⟩⟩] = some (s, t) ∧
      Effect.main_loop_quit ∉ t ∧
      method_calls t =
        ["ClaimAccelerometer", "ClaimLight", "ClaimAccelerometer", "ClaimLight"] ∧
      session_state s = SensorSessionState.Claimed ∧ s.iio_proxy ≠ none := by
  have hall : ∀ e ∈ ([Event.appeared ⟨some ⟨1⟩, CallResult.ok, CallResult.ok,
          ⟨true, "normal", true, 0, "lux"⟩⟩, Event.vanished,
        Event.appeared ⟨some ⟨2⟩, CallResult.ok, CallResult.ok,
          ⟨true, "normal", true, 0, "lux"⟩⟩] : List (Event ℚ)), claims_succeed e := by
    intro e he
    simp only [List.mem_cons, List.mem_singleton, List.not_mem_nil, or_false] at he
    rcases he with rfl | rfl | rfl
    · exact ⟨rfl, rfl, rfl⟩
    · trivial
    · exact ⟨rfl, rfl, rfl⟩
  refine ⟨hall, ?_⟩
  obtain ⟨s, t, hrun, hq, hc, hlast⟩ :=
    (recovery_cycle (fun _ : ℚ => "") initial_session _ hall).2
  have hl := hlast [Event.appeared ⟨some ⟨1⟩, CallResult.ok, CallResult.ok,
      ⟨true, "normal", true, 0, "lux"⟩⟩, Event.vanished]
    (Event.appeared ⟨some ⟨2⟩, CallResult.ok, CallResult.ok,
      ⟨true, "normal", true, 0, "lux"⟩⟩) rfl
  refine ⟨s, t, hrun, hq, hc, hl.1, ?_⟩
  intro hnone
  have := hl.2.mp hnone
  cases this

/-! ### Coordinate matrices -/

/-- C10: read as 3x3 row-major matrices, the four coordinate constants compose
like the rotations they stand for: LEFT * RIGHT = RIGHT * LEFT = NORMAL, which
is the identity, LEFT * LEFT = RIGHT * RIGHT = INVERT, and INVERT * INVERT =
NORMAL; the set of the four is closed under multiplication, and each of them
maps the unit square onto itself. -/
theorem coords_compose_like_rotations :
    (read_coords NORMAL_COORDS = some [1, 0, 0, 0, 1, 0, 0, 0, 1] ∧
      read_coords INVERT_COORDS = some [-1, 0, 1, 0, -1, 1, 0, 0, 1] ∧
      read_coords LEFT_COORDS = some [0, -1, 1, 1, 0, 0, 0, 0, 1] ∧
      read_coords RIGHT_COORDS = some [0, 1, 0, -1, 0, 1, 0, 0, 1]) ∧
    (coords_matrix LEFT_COORDS * coords_matrix RIGHT_COORDS = coords_matrix NORMAL_COORDS ∧
      coords_matrix RIGHT_COORDS * coords_matrix LEFT_COORDS = coords_matrix NORMAL_COORDS ∧
      coords_matrix NORMAL_COORDS = 1 ∧
      coords_matrix LEFT_COORDS * coords_matrix LEFT_COORDS = coords_matrix INVERT_COORDS ∧
      coords_matrix RIGHT_COORDS * coords_matrix RIGHT_COORDS = coords_matrix INVERT_COORDS ∧
      coords_matrix INVERT_COORDS * coords_matrix INVERT_COORDS =
        coords_matrix NORMAL_COORDS) ∧
    (∀ a ∈ [NORMAL_COORDS, LEFT_COORDS, INVERT_COORDS, RIGHT_COORDS],
      ∀ b ∈ [NORMAL_COORDS, LEFT_COORDS, INVERT_COORDS, RIGHT_COORDS],
      ∃ c ∈ [NORMAL_COORDS, LEFT_COORDS, INVERT_COORDS, RIGHT_COORDS],
        coords_matrix a * coords_matrix b = coords_matrix c) ∧
    (∀ a ∈ [NORMAL_COORDS, LEFT_COORDS, INVERT_COORDS, RIGHT_COORDS],
      Set.image (transform_point (coords_matrix a)) unit_square = unit_square) := by
  refine ⟨by decide, by decide, by decide, ?_⟩
  intro a ha
  have hN : ∀ p : ℝ × ℝ, transform_point (coords_matrix NORMAL_COORDS) p = (p.1, p.2) := by
    intro p
    have e : coords_matrix NORMAL_COORDS 0 0 = 1 ∧
        coords_matrix NORMAL_COORDS 0 1 = 0 ∧
        coords_matrix NORMAL_COORDS 0 2 = 0 ∧
        coords_matrix NORMAL_COORDS 1 0 = 0 ∧
        coords_matrix NORMAL_COORDS 1 1 = 1 ∧
        coords_matrix NORMAL_COORDS 1 2 = 0 ∧
        coords_matrix NORMAL_COORDS 2 0 = 0 ∧
        coords_matrix NORMAL_COORDS 2 1 = 0 ∧
        coords_matrix NORMAL_COORDS 2 2 = 1 := by
      decide
    obtain ⟨e00, e01, e02, e10, e11, e12, e20, e21, e22⟩ := e
    simp only [transform_point, e00, e01, e02, e10, e11, e12, e20, e21, e22]
    ext <;> simp
  have hL : ∀ p : ℝ × ℝ, transform_point (coords_matrix LEFT_COORDS) p = (1 - p.2, p.1) := by
    intro p
    have e : coords_matrix LEFT_COORDS 0 0 = 0 ∧
        coords_matrix LEFT_COORDS 0 1 = -1 ∧
        coords_matrix LEFT_COORDS 0 2 = 1 ∧
        coords_matrix LEFT_COORDS 1 0 = 1 ∧
        coords_matrix LEFT_COORDS 1 1 = 0 ∧
        coords_matrix LEFT_COORDS 1 2 = 0 ∧
        coords_matrix LEFT_COORDS 2 0 = 0 ∧
        coords_matrix LEFT_COORDS 2 1 = 0 ∧
        coords_matrix LEFT_COORDS 2 2 = 1 := by
      decide
    obtain ⟨e00, e01, e02, e10, e11, e12, e20, e21, e22⟩ := e
    simp only [transform_point, e00, e01, e02, e10, e11, e12, e20, e21, e22]
    ext <;> simp
    ring
  have hI : ∀ p : ℝ × ℝ, transform_point (coords_matrix INVERT_COORDS) p = (1 - p.1, 1 - p.2) := by
    intro p
    have e : coords_matrix INVERT_COORDS 0 0 = -1 ∧
        coords_matrix INVERT_COORDS 0 1 = 0 ∧
        coords_matrix INVERT_COORDS 0 2 = 1 ∧
        coords_matrix INVERT_COORDS 1 0 = 0 ∧
        coords_matrix INVERT_COORDS 1 1 = -1 ∧
        coords_matrix INVERT_COORDS 1 2 = 1 ∧
        coords_matrix INVERT_COORDS 2 0 = 0 ∧
        coords_matrix INVERT_COORDS 2 1 = 0 ∧
        coords_matrix INVERT_COORDS 2 2 = 1 := by
      decide
    obtain ⟨e00, e01, e02, e10, e11, e12, e20, e21, e22⟩ := e
    simp only [transform_point, e00, e01, e02, e10, e11, e12, e20, e21, e22]
    ext <;> simp <;> ring
  have hR : ∀ p : ℝ × ℝ, transform_point (coords_matrix RIGHT_COORDS) p = (p.2, 1 - p.1) := by
    intro p
    have e : coords_matrix RIGHT_COORDS 0 0 = 0 ∧
        coords_matrix RIGHT_COORDS 0 1 = 1 ∧
        coords_matrix RIGHT_COORDS 0 2 = 0 ∧
        coords_matrix RIGHT_COORDS 1 0 = -1 ∧
        coords_matrix RIGHT_COORDS 1 1 = 0 ∧
        coords_matrix RIGHT_COORDS 1 2 = 1 ∧
        coords_matrix RIGHT_COORDS 2 0 = 0 ∧
        coords_matrix RIGHT_COORDS 2 1 = 0 ∧
        coords_matrix RIGHT_COORDS 2 2 = 1 := by
      decide
    obtain ⟨e00, e01, e02, e10, e11, e12, e20, e21, e22⟩ := e
    simp only [transform_point, e00, e01, e02, e10, e11, e12, e20, e21, e22]
    ext <;> simp
    ring
  simp only [List.mem_cons, List.mem_singleton, List.not_mem_nil, or_false] at ha
  rcases ha with rfl | rfl | rfl | rfl
  · ext q
    simp only [Set.mem_image, unit_square, Set.mem_setOf_eq, hN]
    constructor
    · rintro ⟨p, hp, rfl⟩
      exact hp
    · intro hq
      exact ⟨q, hq, rfl⟩
  · ext q
    simp only [Set.mem_image, unit_square, Set.mem_setOf_eq, hL]
    constructor
    · rintro ⟨p, ⟨h1, h2, h3, h4⟩, rfl⟩
      refine ⟨?_, ?_, ?_, ?_⟩ <;> simp <;> linarith
    · rintro ⟨h1, h2, h3, h4⟩
      refine ⟨(q.2, 1 - q.1), ⟨?_, ?_, ?_, ?_⟩, ?_⟩ <;> simp <;> linarith
  · ext q
    simp only [Set.mem_image, unit_square, Set.mem_setOf_eq, hI]
    constructor
    · rintro ⟨p, ⟨h1, h2, h3, h4⟩, rfl⟩
      refine ⟨?_, ?_, ?_, ?_⟩ <;> simp <;> linarith
    · rintro ⟨h1, h2, h3, h4⟩
      refine ⟨(1 - q.1, 1 - q.2), ⟨?_, ?_, ?_, ?_⟩, ?_⟩ <;> simp <;> linarith
  · ext q
    simp only [Set.mem_image, unit_square, Set.mem_setOf_eq, hR]
    constructor
    · rintro ⟨p, ⟨h1, h2, h3, h4⟩, rfl⟩
      refine ⟨?_, ?_, ?_, ?_⟩ <;> simp <;> linarith
    · rintro ⟨h1, h2, h3, h4⟩
      refine ⟨(1 - q.2, q.1), ⟨?_, ?_, ?_, ?_⟩, ?_⟩ <;> simp <;> linarith

end IioDisplay
